import Mathlib

/-!
Verification of the rule-based transaction risk evaluator.

The evaluation core lives in `src/app.py` (`is_valid_transaction` and its
inner helper `safe_get_scalar`); a second, divergent copy of the rule chain
lives in `src/run_feature_store.py` (`main`).  All numeric values are
modelled as rationals: every literal appearing in the code (1, 20, 0,
10000, 3, 0.5, 2) is exactly representable, so the Python float comparisons
coincide with the rational ones on the values involved.

A fetched profile row is a record of optional rationals: `none` models a
missing column, an absent row, or a null (NaN) cell — exactly the cases
`safe_get_scalar` maps to the default.  A failing profile fetch is the
`Except.error` branch, modelling the `except Exception` handler at the end
of `is_valid_transaction`.
-/

/-- The six feature columns a fetched profile row may carry, each possibly
absent/null.  Mirrors the dataframe row consumed by `is_valid_transaction`
in `src/app.py`. -/
structure UserProfileRow where
  distinct_cards_2_weeks : Option ℚ
  txns_by_user_last_1h_hour : Option ℚ
  num_cbk_card_bin_7d_percent : Option ℚ
  avg_txns_by_user_1h : Option ℚ
  avg_transaction_amount_7d : Option ℚ
  user_cbk_count_lifetime_percent : Option ℚ
  deriving DecidableEq, Repr

/-- `safe_get_scalar` from `src/app.py` (lines 34-39): a missing series
(`None` / length 0) or a null first element yields the default, otherwise
the stored value. -/
def safe_get_scalar (series : Option ℚ) (default : ℚ) : ℚ :=
  match series with
  | none => default
  | some v => v

/-- The ordered rule chain of `is_valid_transaction` (`src/app.py` lines
48-59), applied to the transaction amount and the six already-defaulted
numeric features, in the order
(amount, distinct_cards_2_weeks, txns_by_user_last_1h_hour,
num_cbk_card_bin_7d_percent, avg_txns_by_user_1h,
avg_transaction_amount_7d, user_cbk_count_lifetime_percent). -/
def rule_chain (transaction_amount distinct_cards_2_weeks
    txns_by_user_last_1h_hour num_cbk_card_bin_7d_percent
    avg_txns_by_user_1h avg_transaction_amount_7d
    user_cbk_count_lifetime_percent : ℚ) : Bool × String :=
  if user_cbk_count_lifetime_percent > 0 then
    (false, "Transaction denied due to high chargeback history")
  else if txns_by_user_last_1h_hour ≥ 2 * avg_txns_by_user_1h then
    (false, "Transaction denied due to high transaction volume")
  else if transaction_amount ≥ 2 * avg_transaction_amount_7d then
    (false, "Transaction denied due to high transaction value")
  else if distinct_cards_2_weeks ≥ 3 then
    (false, "Transaction denied due to multiple cards used recently")
  else if num_cbk_card_bin_7d_percent ≥ 1/2 then
    (false, "Transaction denied due to high chargeback rate for card type")
  else
    (true, "Transaction approved")

/-- `is_valid_transaction` from `src/app.py` (lines 13-65): on a successful
fetch, each of the six features is resolved through `safe_get_scalar` with
its per-field default (lines 41-46) and the rule chain runs; any raised
error is caught and produces a fail-closed denial (lines 63-65). -/
def is_valid_transaction (transaction_amount : ℚ)
    (fetch : Except String UserProfileRow) : Bool × String :=
  match fetch with
  | .error e => (false, "Processing error: " ++ e)
  | .ok row =>
    rule_chain transaction_amount
      (safe_get_scalar row.distinct_cards_2_weeks 1)
      (safe_get_scalar row.txns_by_user_last_1h_hour 20)
      (safe_get_scalar row.num_cbk_card_bin_7d_percent 0)
      (safe_get_scalar row.avg_txns_by_user_1h 20)
      (safe_get_scalar row.avg_transaction_amount_7d 10000)
      (safe_get_scalar row.user_cbk_count_lifetime_percent 0)

/-- A profile row with every column absent: models both a fetch returning
no row and a row of nulls. -/
def emptyRow : UserProfileRow :=
  ⟨none, none, none, none, none, none⟩

/-- The explicit default profile of §3: every field at its listed default. -/
def defaultRow : UserProfileRow :=
  ⟨some 1, some 20, some 0, some 20, some 10000, some 0⟩

/-- A profile row on which only the "high transaction value" rule can fire
(for a large enough amount): used to separate the two rule-chain copies. -/
def valueOnlyRow : UserProfileRow :=
  ⟨some 1, some 10, some 0, some 20, some 50, some 0⟩

/-- The duplicated rule chain of `src/run_feature_store.py` (`main`, lines
41-58): falsy-check defaulting with default 0 for every field it reads, and
no `transaction_amount` rule (that branch is commented out).  The script
never reads `avg_transaction_amount_7d`. -/
def run_feature_store_chain (row : UserProfileRow) : Bool × String :=
  let distinct_cards_2_weeks := row.distinct_cards_2_weeks.getD 0
  let txns_by_user_last_1h_hour := row.txns_by_user_last_1h_hour.getD 0
  let num_cbk_card_bin_7d_percent := row.num_cbk_card_bin_7d_percent.getD 0
  let avg_txns_by_user_1h := row.avg_txns_by_user_1h.getD 0
  let user_cbk_count_lifetime_percent :=
    row.user_cbk_count_lifetime_percent.getD 0
  if user_cbk_count_lifetime_percent > 0 then
    (false, "Transaction denied due to high chargeback history")
  else if txns_by_user_last_1h_hour ≥ 2 * avg_txns_by_user_1h then
    (false, "Transaction denied due to high transaction volume")
  else if distinct_cards_2_weeks ≥ 3 then
    (false, "Transaction denied due to multiple cards used recently")
  else if num_cbk_card_bin_7d_percent ≥ 1/2 then
    (false, "Transaction denied due to high chargeback rate for card type")
  else
    (true, "Transaction approved")

/-- Spec-side formulation of §4.2: each rule as a (fires?, denial reason)
pair, in the spec's order, over the same argument order as `rule_chain`. -/
def specRules (transaction_amount distinct_cards_2_weeks
    txns_by_user_last_1h_hour num_cbk_card_bin_7d_percent
    avg_txns_by_user_1h avg_transaction_amount_7d
    user_cbk_count_lifetime_percent : ℚ) : List (Bool × String) :=
  [ (decide (user_cbk_count_lifetime_percent > 0),
      "Transaction denied due to high chargeback history"),
    (decide (txns_by_user_last_1h_hour ≥ 2 * avg_txns_by_user_1h),
      "Transaction denied due to high transaction volume"),
    (decide (transaction_amount ≥ 2 * avg_transaction_amount_7d),
      "Transaction denied due to high transaction value"),
    (decide (distinct_cards_2_weeks ≥ 3),
      "Transaction denied due to multiple cards used recently"),
    (decide (num_cbk_card_bin_7d_percent ≥ 1/2),
      "Transaction denied due to high chargeback rate for card type") ]

/-- Spec-side first-match-wins evaluation over an ordered rule list: the
first rule whose condition holds supplies the denial reason; if none
matches, approve. -/
def firstMatchVerdict (rules : List (Bool × String)) : Bool × String :=
  match rules.find? (·.1) with
  | some r => (false, r.2)
  | none => (true, "Transaction approved")

/-- The closed set of business-rule reason strings (§6). -/
def reasonSet : List String :=
  [ "Transaction approved",
    "Transaction denied due to high chargeback history",
    "Transaction denied due to high transaction volume",
    "Transaction denied due to high transaction value",
    "Transaction denied due to multiple cards used recently",
    "Transaction denied due to high chargeback rate for card type" ]

/-- C1: on six fully-resolved numeric fields and any transaction amount,
the evaluator's chain is exactly first-match-wins evaluation of the §4.2
ordered rule list: the first matching rule supplies the verdict and rules
below a match never contribute. -/
theorem rule_chain_is_first_match (a c t n v m u : ℚ) :
    rule_chain a c t n v m u = firstMatchVerdict (specRules a c t n v m u) := by
  unfold rule_chain firstMatchVerdict specRules
  by_cases h1 : u > 0 <;> by_cases h2 : t ≥ 2 * v <;>
    by_cases h3 : a ≥ 2 * m <;> by_cases h4 : c ≥ 3 <;>
    by_cases h5 : n ≥ 1/2 <;>
    (simp only [h1, h2, h3, h4, h5]; simp [List.find?])

/-- C2: any profile with positive lifetime chargeback percentage is denied
with the "high chargeback history" reason, regardless of the other five
fields and of the amount — in particular even when rule 3's condition
(amount ≥ 2 × 7-day average) also holds. -/
theorem chargeback_history_dominates (a c t n v m u : ℚ) (h : u > 0) :
    rule_chain a c t n v m u =
      (false, "Transaction denied due to high chargeback history") := by
  unfold rule_chain
  rw [if_pos h]

/-- Witness for C2 at a concrete input that also satisfies rule 3's
condition (25000 ≥ 2 × 10000). -/
theorem chargeback_history_dominates_witness :
    (1 : ℚ)/10 > 0 ∧ (25000 : ℚ) ≥ 2 * 10000 ∧
    rule_chain 25000 1 20 0 20 10000 (1/10) =
      (false, "Transaction denied due to high chargeback history") :=
  ⟨by norm_num, by norm_num,
    chargeback_history_dominates 25000 1 20 0 20 10000 (1/10) (by norm_num)⟩

/-- C3 counterexample: the explicit default profile does NOT always
evaluate to approve — at transaction amount 20000 it is denied by rule 3
(20000 ≥ 2 × 10000). -/
theorem default_profile_not_always_approved :
    is_valid_transaction 20000 (.ok defaultRow) =
      (false, "Transaction denied due to high transaction value") := by
  norm_num [is_valid_transaction, defaultRow, rule_chain, safe_get_scalar]

/-- C3 (amended): a fetch returning no row behaves identically to the
explicit default profile at every amount, and the default profile
evaluates to approve for every transaction amount strictly below 20000
(= 2 × the default `avg_transaction_amount_7d`). -/
theorem empty_row_eq_default_row (a : ℚ) :
    is_valid_transaction a (.ok emptyRow) =
      is_valid_transaction a (.ok defaultRow) ∧
    (a < 20000 →
      is_valid_transaction a (.ok defaultRow) =
        (true, "Transaction approved")) := by
  constructor
  · rfl
  · intro h
    unfold is_valid_transaction defaultRow safe_get_scalar rule_chain
    norm_num
    exact h

/-- Witness for C3 (amended) at amount 100. -/
theorem empty_row_eq_default_row_witness :
    is_valid_transaction 100 (.ok emptyRow) =
        is_valid_transaction 100 (.ok defaultRow) ∧
      is_valid_transaction 100 (.ok defaultRow) =
        (true, "Transaction approved") :=
  ⟨(empty_row_eq_default_row 100).1,
    (empty_row_eq_default_row 100).2 (by norm_num)⟩

/-- C4: each of the six fields resolves independently: a `none` source
value (missing column, absent row, or null cell) yields that field's
listed default and a present value passes through unchanged, so the rule
chain always runs on six numeric scalars. -/
theorem per_field_defaulting (a : ℚ) (row : UserProfileRow) :
    safe_get_scalar row.distinct_cards_2_weeks 1 =
      row.distinct_cards_2_weeks.getD 1 ∧
    safe_get_scalar row.txns_by_user_last_1h_hour 20 =
      row.txns_by_user_last_1h_hour.getD 20 ∧
    safe_get_scalar row.num_cbk_card_bin_7d_percent 0 =
      row.num_cbk_card_bin_7d_percent.getD 0 ∧
    safe_get_scalar row.avg_txns_by_user_1h 20 =
      row.avg_txns_by_user_1h.getD 20 ∧
    safe_get_scalar row.avg_transaction_amount_7d 10000 =
      row.avg_transaction_amount_7d.getD 10000 ∧
    safe_get_scalar row.user_cbk_count_lifetime_percent 0 =
      row.user_cbk_count_lifetime_percent.getD 0 ∧
    is_valid_transaction a (.ok row) =
      rule_chain a (row.distinct_cards_2_weeks.getD 1)
        (row.txns_by_user_last_1h_hour.getD 20)
        (row.num_cbk_card_bin_7d_percent.getD 0)
        (row.avg_txns_by_user_1h.getD 20)
        (row.avg_transaction_amount_7d.getD 10000)
        (row.user_cbk_count_lifetime_percent.getD 0) := by
  obtain ⟨f1, f2, f3, f4, f5, f6⟩ := row
  refine ⟨?_, ?_, ?_, ?_, ?_, ?_, ?_⟩ <;>
    cases f1 <;> cases f2 <;> cases f3 <;> cases f4 <;> cases f5 <;>
      cases f6 <;> rfl

/-- C5: boundary values are inclusive: when no earlier rule matches,
a transaction count exactly equal to twice the hourly average denies with
rule 2's reason; a distinct-card count exactly 3 denies with rule 4's
reason; a card-BIN chargeback ratio exactly 0.5 denies with rule 5's
reason. -/
theorem boundary_values_inclusive (a c t n v m u : ℚ) :
    (¬ u > 0 → t = 2 * v →
      rule_chain a c t n v m u =
        (false, "Transaction denied due to high transaction volume")) ∧
    (¬ u > 0 → ¬ t ≥ 2 * v → ¬ a ≥ 2 * m → c = 3 →
      rule_chain a c t n v m u =
        (false, "Transaction denied due to multiple cards used recently")) ∧
    (¬ u > 0 → ¬ t ≥ 2 * v → ¬ a ≥ 2 * m → ¬ c ≥ 3 → n = 1/2 →
      rule_chain a c t n v m u =
        (false,
          "Transaction denied due to high chargeback rate for card type")) := by
  refine ⟨?_, ?_, ?_⟩
  · intro h1 ht
    unfold rule_chain
    rw [if_neg h1, if_pos (le_of_eq ht.symm)]
  · intro h1 h2 h3 hc
    unfold rule_chain
    rw [if_neg h1, if_neg h2, if_neg h3, if_pos (le_of_eq hc.symm)]
  · intro h1 h2 h3 h4 hn
    unfold rule_chain
    rw [if_neg h1, if_neg h2, if_neg h3, if_neg h4,
      if_pos (le_of_eq hn.symm)]

/-- Witness for C5: each boundary at a concrete input (txns 40 = 2 × 20;
cards = 3; ratio = 1/2). -/
theorem boundary_values_inclusive_witness :
    rule_chain 100 1 40 0 20 10000 0 =
        (false, "Transaction denied due to high transaction volume") ∧
      rule_chain 100 3 10 0 20 10000 0 =
        (false, "Transaction denied due to multiple cards used recently") ∧
      rule_chain 100 1 10 (1/2) 20 10000 0 =
        (false,
          "Transaction denied due to high chargeback rate for card type") :=
  ⟨(boundary_values_inclusive 100 1 40 0 20 10000 0).1
      (by norm_num) (by norm_num),
    (boundary_values_inclusive 100 3 10 0 20 10000 0).2.1
      (by norm_num) (by norm_num) (by norm_num) (by norm_num),
    (boundary_values_inclusive 100 1 10 (1/2) 20 10000 0).2.2
      (by norm_num) (by norm_num) (by norm_num) (by norm_num) (by norm_num)⟩

/-- C6: every failure path is fail-closed: a failing profile fetch yields
a well-formed denial carrying the underlying error text, with approval
false — a failure never yields approve. -/
theorem failure_denies (a : ℚ) (e : String) :
    is_valid_transaction a (.error e) =
        (false, "Processing error: " ++ e) ∧
      (is_valid_transaction a (.error e)).1 = false :=
  ⟨rfl, rfl⟩

/-- Every possible outcome of the rule chain carries a reason from the
closed business-rule set. -/
theorem rule_chain_reason_mem (a c t n v m u : ℚ) :
    (rule_chain a c t n v m u).2 ∈ reasonSet := by
  unfold rule_chain reasonSet
  split_ifs <;> simp

/-- C7: for every input, the returned reason is one of the six fixed
business-rule strings or a processing-error variant carrying the error
text; no other reason string is ever produced. -/
theorem reason_in_closed_set (a : ℚ) (fetch : Except String UserProfileRow) :
    (is_valid_transaction a fetch).2 ∈ reasonSet ∨
      ∃ e, (is_valid_transaction a fetch).2 = "Processing error: " ++ e := by
  match fetch with
  | .error e => exact Or.inr ⟨e, rfl⟩
  | .ok row =>
    exact Or.inl
      (rule_chain_reason_mem a
        (safe_get_scalar row.distinct_cards_2_weeks 1)
        (safe_get_scalar row.txns_by_user_last_1h_hour 20)
        (safe_get_scalar row.num_cbk_card_bin_7d_percent 0)
        (safe_get_scalar row.avg_txns_by_user_1h 20)
        (safe_get_scalar row.avg_transaction_amount_7d 10000)
        (safe_get_scalar row.user_cbk_count_lifetime_percent 0))

/-- C8: evaluation is deterministic and stateless: the verdict is a
function of the (transaction amount, fetched profile) pair alone, so two
evaluations of equal pairs yield identical verdicts. -/
theorem evaluation_deterministic (a₁ a₂ : ℚ)
    (f₁ f₂ : Except String UserProfileRow) (ha : a₁ = a₂) (hf : f₁ = f₂) :
    is_valid_transaction a₁ f₁ = is_valid_transaction a₂ f₂ := by
  rw [ha, hf]

/-- Witness for C8 at a concrete pair. -/
theorem evaluation_deterministic_witness :
    is_valid_transaction 100 (.ok defaultRow) =
      is_valid_transaction 100 (.ok defaultRow) :=
  evaluation_deterministic 100 100 (.ok defaultRow) (.ok defaultRow) rfl rfl

/-- C9: the standalone runner's copy of the rule chain is not equivalent
to the service's chain: on an all-absent profile the service approves
(amount 100) while the runner's all-zero falsy defaults deny for high
volume; on `valueOnlyRow` with amount 1000 the service denies for high
transaction value while the runner — missing that rule — approves. -/
theorem runner_chain_diverges :
    is_valid_transaction 100 (.ok emptyRow) = (true, "Transaction approved") ∧
      run_feature_store_chain emptyRow =
        (false, "Transaction denied due to high transaction volume") ∧
      is_valid_transaction 1000 (.ok valueOnlyRow) =
        (false, "Transaction denied due to high transaction value") ∧
      run_feature_store_chain valueOnlyRow = (true, "Transaction approved") ∧
      is_valid_transaction 100 (.ok emptyRow) ≠
        run_feature_store_chain emptyRow ∧
      is_valid_transaction 1000 (.ok valueOnlyRow) ≠
        run_feature_store_chain valueOnlyRow := by
  refine ⟨?_, ?_, ?_, ?_, ?_, ?_⟩ <;>
    norm_num [is_valid_transaction, run_feature_store_chain, emptyRow,
      valueOnlyRow, safe_get_scalar, rule_chain]

/-- C10: with a non-positive lifetime chargeback percentage and a zero
hourly transaction average, every non-negative transaction count satisfies
rule 2's condition (t ≥ 2 × 0), so the verdict is always a "high
transaction volume" denial and approval is unreachable, for every amount
and every value of the remaining fields. -/
theorem zero_hourly_average_denies (a c t n m u : ℚ)
    (hu : u ≤ 0) (ht : t ≥ 0) :
    rule_chain a c t n 0 m u =
      (false, "Transaction denied due to high transaction volume") := by
  unfold rule_chain
  rw [if_neg (not_lt.mpr hu), if_pos (by rw [mul_zero]; exact ht)]

/-- Witness for C10 at a concrete input (average 0, count 5). -/
theorem zero_hourly_average_denies_witness :
    rule_chain 100 1 5 0 0 10000 0 =
      (false, "Transaction denied due to high transaction volume") :=
  zero_hourly_average_denies 100 1 5 0 10000 0 (by norm_num) (by norm_num)
